import Mathlib

/-!
Verification of the plant monitoring dashboard (src/App.tsx).

The repository is a single-screen React Native dashboard over an in-memory
synthetic dataset.  We shallowly embed its data model and operations:

* `PlantData`, `DayData` mirror the TypeScript interfaces.  The locale
  formatted display strings (`displayTime`, `displayDate`) and labels are
  modelled by the numeric values they render (the hour of day, the day
  number): the formatting itself is pure presentation and none of the
  claims touch it.  Time is modelled as an absolute day number (`Int`)
  plus hours; a datetime is the absolute number of hours
  `day * 24 + hour`.

* `Math.random()` is modelled by a stream `rng : Nat -> Rat` of draws,
  valid when every draw `q` satisfies `0 <= q /\ q < 1` (`ValidRng`).
  `Math.floor (Math.random () * k) + b` becomes `Int.floor (rng n * k) + b`.
  The generator consumes three draws per reading in source order, indexed
  by `(dayOffset * 12 + hourIdx) * 3 + {0,1,2}`.

* The component state (`useState` hooks) is a `DashboardState` record;
  each user interaction is a function on it.  The two `useEffect` hooks
  (re-pointing `plantData` on day selection and recomputing the status
  from the most recent reading) fire synchronously after the state updates
  that change their dependencies, so they are folded into the transition
  functions (`dayEffect`, `statusEffect`).
-/

/-- Mirrors the `PlantData` interface: one timestamped set of measurements.
`datetime` is absolute hours, `displayTime` the rendered hour of day,
`displayDate` the rendered day number. -/
structure PlantData where
  datetime : Int
  displayTime : Int
  displayDate : Int
  temperature : Int
  humidity : Int
  soilMoisture : Int
  deriving DecidableEq, Repr

/-- Mirrors the `DayData` interface: a labelled bucket of readings.
`label` and `value` both hold the rendered day number (the source sets
both to the same formatted date string). -/
structure DayData where
  label : Int
  value : Int
  data : List PlantData
  deriving DecidableEq, Repr

/-- The `PlantStatus` union type of the source. -/
inductive PlantStatus where
  | healthy
  | needsWater
  | tooHot
  | lowHumidity
  deriving DecidableEq, Repr

/-- The `MetricType` union type of the source. -/
inductive MetricType where
  | temperature
  | humidity
  | soilMoisture
  deriving DecidableEq, Repr

/-- A stream of `Math.random()` results: every draw lies in `[0, 1)`. -/
def ValidRng (rng : Nat → ℚ) : Prop :=
  ∀ n, 0 ≤ rng n ∧ rng n < 1

/-- One reading of `generateHistoricalData`, from the three draws
`rT, rH, rS` consumed at day offset `dayOffset`, hour `hour` of the day
`nowDay - dayOffset`:
`temperature = Math.floor(rT * 10) + 65`,
`humidity = Math.floor(rH * 20) + 50`,
`soilMoisture = Math.floor(rS * 30) + 40`. -/
def mkReading (nowDay : Int) (dayOffset : Nat) (hour : Nat)
    (rT rH rS : ℚ) : PlantData :=
  { datetime := (nowDay - dayOffset) * 24 + hour
    displayTime := hour
    displayDate := nowDay - dayOffset
    temperature := ⌊rT * 10⌋ + 65
    humidity := ⌊rH * 20⌋ + 50
    soilMoisture := ⌊rS * 30⌋ + 40 }

/-- The inner loop of `generateHistoricalData`: `for (hour = 0; hour < 24;
hour += 2)` produces 12 readings at hours `0, 2, ..., 22`; reading index
`h` uses hour `2 * h` and the draws `(dayOffset * 12 + h) * 3 + {0,1,2}`. -/
def mkDayData (nowDay : Int) (rng : Nat → ℚ) (dayOffset : Nat) : DayData :=
  { label := nowDay - dayOffset
    value := nowDay - dayOffset
    data := (List.range 12).map fun h =>
      mkReading nowDay dayOffset (2 * h)
        (rng ((dayOffset * 12 + h) * 3))
        (rng ((dayOffset * 12 + h) * 3 + 1))
        (rng ((dayOffset * 12 + h) * 3 + 2)) }

/-- `generateHistoricalData`: the outer loop `for (dayOffset = 0;
dayOffset < 7; dayOffset++)` pushes one bucket per day, today back to six
days prior. -/
def generateHistoricalData (nowDay : Int) (rng : Nat → ℚ) : List DayData :=
  (List.range 7).map (mkDayData nowDay rng)

/-- The status classifier of the status `useEffect`: fixed thresholds in
priority order. -/
def classifyStatus (r : PlantData) : PlantStatus :=
  if r.soilMoisture < 45 then PlantStatus.needsWater
  else if r.temperature > 75 then PlantStatus.tooHot
  else if r.humidity < 55 then PlantStatus.lowHumidity
  else PlantStatus.healthy

/-- Default reading used only to totalize JavaScript indexing
(`xs[i]` on an out-of-range index); never reached on in-bounds states. -/
def defaultReading : PlantData :=
  { datetime := 0, displayTime := 0, displayDate := 0
    temperature := 0, humidity := 0, soilMoisture := 0 }

/-- Default bucket used only to totalize JavaScript indexing. -/
def defaultDay : DayData :=
  { label := 0, value := 0, data := [] }

/-- The `useState` hooks of `PlantDashboard`. -/
structure DashboardState where
  allDaysData : List DayData
  selectedDayIndex : Nat
  plantData : List PlantData
  selectedMetric : MetricType
  plantStatus : PlantStatus
  dayPickerVisible : Bool
  deriving Repr

/-- `currentData = plantData[plantData.length - 1]`, the most recent
reading of the active day. -/
def currentData (s : DashboardState) : PlantData :=
  s.plantData.getD (s.plantData.length - 1) defaultReading

/-- The first `useEffect`: `setPlantData(allDaysData[selectedDayIndex].data)`. -/
def dayEffect (s : DashboardState) : DashboardState :=
  { s with plantData := (s.allDaysData.getD s.selectedDayIndex defaultDay).data }

/-- The second `useEffect`: recompute `plantStatus` from `currentData`. -/
def statusEffect (s : DashboardState) : DashboardState :=
  { s with plantStatus := classifyStatus (currentData s) }

/-- The initial component state: freshly generated data, day index 0,
`plantData = allDaysData[0].data`, metric `temperature`; both effects run
after the first render. -/
def initState (nowDay : Int) (rng : Nat → ℚ) : DashboardState :=
  statusEffect (dayEffect
    { allDaysData := generateHistoricalData nowDay rng
      selectedDayIndex := 0
      plantData := ((generateHistoricalData nowDay rng).getD 0 defaultDay).data
      selectedMetric := MetricType.temperature
      plantStatus := PlantStatus.healthy
      dayPickerVisible := false })

/-- The day picker `onPress`: `setSelectedDayIndex(index)` and
`setDayPickerVisible(false)`, after which both effects fire. -/
def selectDay (s : DashboardState) (i : Nat) : DashboardState :=
  statusEffect (dayEffect
    { s with selectedDayIndex := i, dayPickerVisible := false })

/-- A metric toggle button `onPress`: `setSelectedMetric(m)`.  No effect
depends on `selectedMetric`, so nothing else changes. -/
def setSelectedMetric (s : DashboardState) (m : MetricType) : DashboardState :=
  { s with selectedMetric := m }

/-- `refreshData`: regenerate the dataset, point `plantData` at the bucket
of the (unchanged) selected index of the new data; both effects fire. -/
def refreshData (s : DashboardState) (nowDay : Int) (rng : Nat → ℚ) :
    DashboardState :=
  statusEffect (dayEffect
    { s with
      allDaysData := generateHistoricalData nowDay rng
      plantData := ((generateHistoricalData nowDay rng).getD
        s.selectedDayIndex defaultDay).data })

/-- C1: the status classifier is a pure, total function of a single
reading evaluating fixed thresholds in priority order: soil moisture
below 45 gives needs-water regardless of the other fields; otherwise
temperature above 75 gives too-hot; otherwise humidity below 55 gives
low-humidity; otherwise healthy. -/
theorem classifyStatus_priority_order (r : PlantData) :
    (r.soilMoisture < 45 → classifyStatus r = PlantStatus.needsWater) ∧
    (45 ≤ r.soilMoisture → 75 < r.temperature →
      classifyStatus r = PlantStatus.tooHot) ∧
    (45 ≤ r.soilMoisture → r.temperature ≤ 75 → r.humidity < 55 →
      classifyStatus r = PlantStatus.lowHumidity) ∧
    (45 ≤ r.soilMoisture → r.temperature ≤ 75 → 55 ≤ r.humidity →
      classifyStatus r = PlantStatus.healthy) := by
  unfold classifyStatus
  refine ⟨fun h => by simp [h], fun h1 h2 => ?_, fun h1 h2 h3 => ?_,
    fun h1 h2 h3 => ?_⟩
  · rw [if_neg (by omega), if_pos h2]
  · rw [if_neg (by omega), if_neg (by omega), if_pos h3]
  · rw [if_neg (by omega), if_neg (by omega), if_neg (by omega)]

/-- Witness for C1 at the concrete inputs named by the claim:
soilMoisture 40 gives needs-water for arbitrary other fields (here
temperature 100, humidity 100); (50, 80, _) gives too-hot;
(50, 70, 50) gives low-humidity; (50, 70, 60) gives healthy. -/
theorem classifyStatus_priority_order_witness :
    classifyStatus (PlantData.mk 0 0 0 100 100 40) = PlantStatus.needsWater ∧
    classifyStatus (PlantData.mk 0 0 0 80 60 50) = PlantStatus.tooHot ∧
    classifyStatus (PlantData.mk 0 0 0 70 50 50) = PlantStatus.lowHumidity ∧
    classifyStatus (PlantData.mk 0 0 0 70 60 50) = PlantStatus.healthy :=
  ⟨(classifyStatus_priority_order _).1 (by decide),
   (classifyStatus_priority_order _).2.1 (by decide) (by decide),
   (classifyStatus_priority_order _).2.2.1 (by decide) (by decide) (by decide),
   (classifyStatus_priority_order _).2.2.2 (by decide) (by decide) (by decide)⟩

/-- Bounds on a scaled floor of a draw in `[0, 1)`: the source pattern
`Math.floor(Math.random() * k)` lies in `[0, k - 1]`. -/
theorem floor_scale_bounds (q : ℚ) (k : ℕ) (hk : 0 < k) (h0 : 0 ≤ q)
    (h1 : q < 1) : 0 ≤ ⌊q * (k : ℚ)⌋ ∧ ⌊q * (k : ℚ)⌋ < (k : ℤ) := by
  have hk' : (0 : ℚ) < (k : ℚ) := by exact_mod_cast hk
  constructor
  · exact Int.floor_nonneg.mpr (mul_nonneg h0 (le_of_lt hk'))
  · apply Int.floor_lt.mpr
    push_cast
    nlinarith

/-- Every bucket of the generator is `mkDayData` at some day offset below 7. -/
theorem mem_generate_iff (nowDay : Int) (rng : Nat → ℚ) (d : DayData) :
    d ∈ generateHistoricalData nowDay rng ↔
      ∃ i, i < 7 ∧ d = mkDayData nowDay rng i := by
  unfold generateHistoricalData
  simp only [List.mem_map, List.mem_range]
  constructor
  · rintro ⟨i, hi, rfl⟩; exact ⟨i, hi, rfl⟩
  · rintro ⟨i, hi, rfl⟩; exact ⟨i, hi, rfl⟩

/-- Every reading of a generated bucket is `mkReading` at some hour index
below 12, on the three draws the source consumes for it. -/
theorem mem_mkDayData_iff (nowDay : Int) (rng : Nat → ℚ) (i : Nat)
    (r : PlantData) :
    r ∈ (mkDayData nowDay rng i).data ↔
      ∃ h, h < 12 ∧ r = mkReading nowDay i (2 * h)
        (rng ((i * 12 + h) * 3)) (rng ((i * 12 + h) * 3 + 1))
        (rng ((i * 12 + h) * 3 + 2)) := by
  unfold mkDayData
  simp only [List.mem_map, List.mem_range]
  constructor
  · rintro ⟨h, hh, rfl⟩; exact ⟨h, hh, rfl⟩
  · rintro ⟨h, hh, rfl⟩; exact ⟨h, hh, rfl⟩

/-- C2: over all random draws in `[0, 1)`, every generated reading has
temperature in `[65, 75]`, humidity in `[50, 70]` and soil moisture in
`[40, 70]`. -/
theorem generate_readings_in_range (nowDay : Int) (rng : Nat → ℚ)
    (hv : ValidRng rng) :
    ∀ d ∈ generateHistoricalData nowDay rng, ∀ r ∈ d.data,
      (65 ≤ r.temperature ∧ r.temperature ≤ 75) ∧
      (50 ≤ r.humidity ∧ r.humidity ≤ 70) ∧
      (40 ≤ r.soilMoisture ∧ r.soilMoisture ≤ 70) := by
  intro d hd r hr
  obtain ⟨i, hi, rfl⟩ := (mem_generate_iff nowDay rng d).mp hd
  obtain ⟨h, hh, rfl⟩ := (mem_mkDayData_iff nowDay rng i r).mp hr
  obtain ⟨hT0, hT1⟩ := (hv ((i * 12 + h) * 3))
  obtain ⟨hH0, hH1⟩ := (hv ((i * 12 + h) * 3 + 1))
  obtain ⟨hS0, hS1⟩ := (hv ((i * 12 + h) * 3 + 2))
  have bT := floor_scale_bounds _ 10 (by norm_num) hT0 hT1
  have bH := floor_scale_bounds _ 20 (by norm_num) hH0 hH1
  have bS := floor_scale_bounds _ 30 (by norm_num) hS0 hS1
  push_cast at bT bH bS
  simp only [mkReading]
  exact ⟨⟨by omega, by omega⟩, ⟨by omega, by omega⟩, by omega, by omega⟩

/-- Witness for C2 on the all-zero draw stream: the first reading of the
first bucket is in range. -/
theorem generate_readings_in_range_witness :
    (65 ≤ (mkReading 0 0 0 0 0 0).temperature ∧
      (mkReading 0 0 0 0 0 0).temperature ≤ 75) ∧
    (50 ≤ (mkReading 0 0 0 0 0 0).humidity ∧
      (mkReading 0 0 0 0 0 0).humidity ≤ 70) ∧
    (40 ≤ (mkReading 0 0 0 0 0 0).soilMoisture ∧
      (mkReading 0 0 0 0 0 0).soilMoisture ≤ 70) :=
  generate_readings_in_range 0 (fun _ => 0)
    (fun _ => ⟨le_refl 0, by norm_num⟩)
    (mkDayData 0 (fun _ => 0) 0)
    ((mem_generate_iff 0 (fun _ => 0) _).mpr ⟨0, by norm_num, rfl⟩)
    (mkReading 0 0 0 0 0 0)
    ((mem_mkDayData_iff 0 (fun _ => 0) 0 _).mpr ⟨0, by norm_num, rfl⟩)

/-- C3: every call of the generator returns exactly 7 day-buckets, each
containing exactly 12 readings. -/
theorem generate_shape (nowDay : Int) (rng : Nat → ℚ) :
    (generateHistoricalData nowDay rng).length = 7 ∧
    ∀ d ∈ generateHistoricalData nowDay rng, d.data.length = 12 := by
  constructor
  · simp [generateHistoricalData]
  · intro d hd
    obtain ⟨i, _, rfl⟩ := (mem_generate_iff nowDay rng d).mp hd
    simp [mkDayData]

/-- Witness for C3 on the all-zero draw stream and day number 0. -/
theorem generate_shape_witness :
    (generateHistoricalData 0 (fun _ => 0)).length = 7 ∧
    (mkDayData 0 (fun _ => 0) 0).data.length = 12 :=
  ⟨(generate_shape 0 (fun _ => 0)).1,
   (generate_shape 0 (fun _ => 0)).2 _
     ((mem_generate_iff 0 (fun _ => 0) _).mpr ⟨0, by norm_num, rfl⟩)⟩

/-- Indexing the generated dataset: bucket `i` of a call is `mkDayData`
at day offset `i`, for every in-range `i`. -/
theorem generate_getD (nowDay : Int) (rng : Nat → ℚ) (i : Nat) (hi : i < 7) :
    (generateHistoricalData nowDay rng).getD i defaultDay =
      mkDayData nowDay rng i := by
  unfold generateHistoricalData
  rw [List.getD_eq_getElem?_getD, List.getElem?_map, List.getElem?_range hi]
  rfl

/-- Indexing a generated bucket: reading `j` is `mkReading` at hour
`2 * j`, for every in-range `j`. -/
theorem mkDayData_data_getD (nowDay : Int) (rng : Nat → ℚ) (i j : Nat)
    (hj : j < 12) :
    (mkDayData nowDay rng i).data.getD j defaultReading =
      mkReading nowDay i (2 * j) (rng ((i * 12 + j) * 3))
        (rng ((i * 12 + j) * 3 + 1)) (rng ((i * 12 + j) * 3 + 2)) := by
  unfold mkDayData
  rw [List.getD_eq_getElem?_getD, List.getElem?_map, List.getElem?_range hj]
  rfl

/-- Indexing the last element of a nonempty list via `getD`, the shape
JavaScript uses with `xs[xs.length - 1]`. -/
theorem getD_length_sub_one_eq_getLast (l : List PlantData) (d : PlantData)
    (h : l ≠ []) : l.getD (l.length - 1) d = l.getLast h := by
  have hlt : l.length - 1 < l.length := by
    cases l with
    | nil => exact absurd rfl h
    | cons a t => simp
  rw [List.getD_eq_getElem l d hlt, List.getLast_eq_getElem]

/-- C4: `refreshData` replaces all 7 day-buckets with a freshly generated
dataset, leaves the selected day index unchanged, and points the active
reading sequence at the bucket of that index in the new dataset. -/
theorem refreshData_frame (s : DashboardState) (nowDay : Int)
    (rng : Nat → ℚ) :
    (refreshData s nowDay rng).selectedDayIndex = s.selectedDayIndex ∧
    (refreshData s nowDay rng).allDaysData =
      generateHistoricalData nowDay rng ∧
    (refreshData s nowDay rng).plantData =
      ((generateHistoricalData nowDay rng).getD
        s.selectedDayIndex defaultDay).data :=
  ⟨rfl, rfl, rfl⟩

/-- C10: selecting a metric changes only the selected-metric component:
the dataset, the selected day index, the active reading sequence and the
derived plant status are all unchanged. -/
theorem setSelectedMetric_frame (s : DashboardState) (m : MetricType) :
    (setSelectedMetric s m).selectedMetric = m ∧
    (setSelectedMetric s m).allDaysData = s.allDaysData ∧
    (setSelectedMetric s m).selectedDayIndex = s.selectedDayIndex ∧
    (setSelectedMetric s m).plantData = s.plantData ∧
    (setSelectedMetric s m).plantStatus = s.plantStatus :=
  ⟨rfl, rfl, rfl, rfl, rfl⟩

/-- C5: for every valid day index `i`, selecting day `i` makes the
displayed current metric values (temperature, humidity, soil moisture)
those of the last reading of bucket `i`. -/
theorem selectDay_currentData_last (s : DashboardState) (i : Nat)
    (hi : i < s.allDaysData.length)
    (hne : (s.allDaysData.getD i defaultDay).data ≠ []) :
    (currentData (selectDay s i)).temperature =
      ((s.allDaysData.getD i defaultDay).data.getLast hne).temperature ∧
    (currentData (selectDay s i)).humidity =
      ((s.allDaysData.getD i defaultDay).data.getLast hne).humidity ∧
    (currentData (selectDay s i)).soilMoisture =
      ((s.allDaysData.getD i defaultDay).data.getLast hne).soilMoisture := by
  have hcd : currentData (selectDay s i) =
      (s.allDaysData.getD i defaultDay).data.getLast hne := by
    unfold selectDay statusEffect dayEffect currentData
    exact getD_length_sub_one_eq_getLast _ _ hne
  rw [hcd]
  exact ⟨rfl, rfl, rfl⟩

/-- The cross-entity invariant of the spec: the selected day index is
within bounds of the generated set, whose size is 7. -/
def DashInv (s : DashboardState) : Prop :=
  s.allDaysData.length = 7 ∧ s.selectedDayIndex < s.allDaysData.length

/-- C6: the bounds invariant holds initially and is preserved by every
dashboard operation: selecting a day from the picker (the picker only
offers indices of `allDaysData`), selecting a metric, and refreshing. -/
theorem dashboard_invariant (nowDay : Int) (rng : Nat → ℚ) :
    DashInv (initState nowDay rng) ∧
    (∀ s i, DashInv s → i < s.allDaysData.length → DashInv (selectDay s i)) ∧
    (∀ s m, DashInv s → DashInv (setSelectedMetric s m)) ∧
    (∀ s nd rg, DashInv s → DashInv (refreshData s nd rg)) := by
  refine ⟨?_, ?_, ?_, ?_⟩
  · constructor
    · simp [initState, statusEffect, dayEffect, generateHistoricalData]
    · simp [initState, statusEffect, dayEffect, generateHistoricalData]
  · rintro s i ⟨h7, _⟩ hi
    exact ⟨h7, hi⟩
  · rintro s m ⟨h7, hlt⟩
    exact ⟨h7, hlt⟩
  · rintro s nd rg ⟨h7, hlt⟩
    refine ⟨by simp [refreshData, statusEffect, dayEffect, generateHistoricalData], ?_⟩
    have : (refreshData s nd rg).selectedDayIndex = s.selectedDayIndex := rfl
    rw [this]
    have h2 : (refreshData s nd rg).allDaysData.length = 7 := by
      simp [refreshData, statusEffect, dayEffect, generateHistoricalData]
    rw [h2]
    omega

/-- Witness for C6: the invariant after selecting day 3 and refreshing
from the initial state on the all-zero draw stream. -/
theorem dashboard_invariant_witness :
    DashInv (refreshData (selectDay (initState 0 (fun _ => 0)) 3) 1
      (fun _ => 0)) :=
  (dashboard_invariant 0 (fun _ => 0)).2.2.2 _ 1 (fun _ => 0)
    ((dashboard_invariant 0 (fun _ => 0)).2.1 _ 3
      (dashboard_invariant 0 (fun _ => 0)).1
      (by simp [initState, statusEffect, dayEffect, generateHistoricalData]))

/-- C7: bucket `i` of the generator holds the day `nowDay - i` (today
back to six days prior), its readings sit at two-hour intervals, reading
`j` has datetime hour `(nowDay - i) * 24 + 2 * j` (hours 0, 2, ..., 22 of
that day), and datetimes strictly increase within the bucket. -/
theorem generate_day_order_and_intervals (nowDay : Int) (rng : Nat → ℚ)
    (i j : Nat) (hi : i < 7) (hj : j < 12) :
    ((generateHistoricalData nowDay rng).getD i defaultDay).label =
      nowDay - i ∧
    (((generateHistoricalData nowDay rng).getD i defaultDay).data.getD j
        defaultReading).datetime = (nowDay - i) * 24 + 2 * j ∧
    (∀ j2, j < j2 → j2 < 12 →
      (((generateHistoricalData nowDay rng).getD i defaultDay).data.getD j
          defaultReading).datetime <
        (((generateHistoricalData nowDay rng).getD i defaultDay).data.getD j2
            defaultReading).datetime) := by
  rw [generate_getD nowDay rng i hi]
  have hdt : ∀ j0, j0 < 12 →
      ((mkDayData nowDay rng i).data.getD j0 defaultReading).datetime =
        (nowDay - i) * 24 + 2 * j0 := by
    intro j0 hj0
    rw [mkDayData_data_getD nowDay rng i j0 hj0]
    simp [mkReading]
  refine ⟨by simp [mkDayData], hdt j hj, ?_⟩
  intro j2 hlt hj2
  rw [hdt j hj, hdt j2 hj2]
  have : (j : Int) < (j2 : Int) := by exact_mod_cast hlt
  omega

/-- Witness for C7 at day number 0, the all-zero draw stream, bucket 2,
readings 5 and 7. -/
theorem generate_day_order_and_intervals_witness :
    ((generateHistoricalData 0 (fun _ => 0)).getD 2 defaultDay).label =
      0 - 2 ∧
    (((generateHistoricalData 0 (fun _ => 0)).getD 2 defaultDay).data.getD 5
        defaultReading).datetime = (0 - 2) * 24 + 2 * 5 ∧
    (((generateHistoricalData 0 (fun _ => 0)).getD 2 defaultDay).data.getD 5
        defaultReading).datetime <
      (((generateHistoricalData 0 (fun _ => 0)).getD 2 defaultDay).data.getD 7
          defaultReading).datetime :=
  ⟨(generate_day_order_and_intervals 0 (fun _ => 0) 2 5 (by decide)
      (by decide)).1,
   (generate_day_order_and_intervals 0 (fun _ => 0) 2 5 (by decide)
      (by decide)).2.1,
   (generate_day_order_and_intervals 0 (fun _ => 0) 2 5 (by decide)
      (by decide)).2.2 7 (by decide) (by decide)⟩

/-- C9: over all random draws in `[0, 1)`, the classifier never returns
too-hot on a generated reading: generated temperatures are at most 74,
below the threshold 75 of the too-hot branch. -/
theorem generate_never_tooHot (nowDay : Int) (rng : Nat → ℚ)
    (hv : ValidRng rng) :
    ∀ d ∈ generateHistoricalData nowDay rng, ∀ r ∈ d.data,
      classifyStatus r ≠ PlantStatus.tooHot := by
  intro d hd r hr
  obtain ⟨i, hi, rfl⟩ := (mem_generate_iff nowDay rng d).mp hd
  obtain ⟨h, hh, rfl⟩ := (mem_mkDayData_iff nowDay rng i r).mp hr
  obtain ⟨hT0, hT1⟩ := hv ((i * 12 + h) * 3)
  have bT := floor_scale_bounds _ 10 (by norm_num) hT0 hT1
  push_cast at bT
  simp only [classifyStatus, mkReading]
  split
  · simp
  · rw [if_neg (by omega)]
    split <;> simp

/-- Witness for C9 on the all-zero draw stream: the first generated
reading is not classified too-hot. -/
theorem generate_never_tooHot_witness :
    classifyStatus (mkReading 0 0 0 0 0 0) ≠ PlantStatus.tooHot :=
  generate_never_tooHot 0 (fun _ => 0) (fun _ => ⟨le_refl 0, by norm_num⟩)
    (mkDayData 0 (fun _ => 0) 0)
    ((mem_generate_iff 0 (fun _ => 0) _).mpr ⟨0, by norm_num, rfl⟩)
    (mkReading 0 0 0 0 0 0)
    ((mem_mkDayData_iff 0 (fun _ => 0) 0 _).mpr ⟨0, by norm_num, rfl⟩)

/-- Counterexample to C8 as stated: no random draw in `[0, 1)` can make a
generated reading reach the upper endpoint temperature 75, since
`Math.floor(q * 10) + 65` is at most 74 for `q < 1`. -/
theorem temperature_75_unreachable :
    ¬ ∃ (nowDay : Int) (rng : Nat → ℚ), ValidRng rng ∧
      ∃ d ∈ generateHistoricalData nowDay rng, ∃ r ∈ d.data,
        r.temperature = 75 := by
  rintro ⟨nowDay, rng, hv, d, hd, r, hr, heq⟩
  obtain ⟨i, hi, rfl⟩ := (mem_generate_iff nowDay rng d).mp hd
  obtain ⟨h, hh, rfl⟩ := (mem_mkDayData_iff nowDay rng i r).mp hr
  obtain ⟨hT0, hT1⟩ := hv ((i * 12 + h) * 3)
  have bT := floor_scale_bounds _ 10 (by norm_num) hT0 hT1
  push_cast at bT
  simp only [mkReading] at heq
  omega

/-- C8 amended: the attainable values are exactly the integers of
`[65, 74]` for temperature, `[50, 69]` for humidity and `[40, 69]` for
soil moisture: for every integer in those ranges some draw stream in
`[0, 1)` produces a generated reading with that value. -/
theorem generate_attains_ranges (nowDay : Int) (v : Int) :
    (65 ≤ v → v ≤ 74 → ∃ rng, ValidRng rng ∧
      ∃ d ∈ generateHistoricalData nowDay rng, ∃ r ∈ d.data,
        r.temperature = v) ∧
    (50 ≤ v → v ≤ 69 → ∃ rng, ValidRng rng ∧
      ∃ d ∈ generateHistoricalData nowDay rng, ∃ r ∈ d.data,
        r.humidity = v) ∧
    (40 ≤ v → v ≤ 69 → ∃ rng, ValidRng rng ∧
      ∃ d ∈ generateHistoricalData nowDay rng, ∃ r ∈ d.data,
        r.soilMoisture = v) := by
  have key : ∀ (b : Int) (k : ℕ), 0 < k → b ≤ v → v < b + k →
      ∃ q : ℚ, (0 ≤ q ∧ q < 1) ∧ ⌊q * (k : ℚ)⌋ + b = v := by
    intro b k hk hbv hvb
    refine ⟨((v : ℚ) - (b : ℚ)) / (k : ℚ), ⟨?_, ?_⟩, ?_⟩
    · apply div_nonneg
      · have : (b : ℚ) ≤ (v : ℚ) := by exact_mod_cast hbv
        linarith
      · positivity
    · rw [div_lt_one (by positivity)]
      have : (v : ℚ) < (b : ℚ) + (k : ℚ) := by exact_mod_cast hvb
      linarith
    · have hk' : (k : ℚ) ≠ 0 := by positivity
      rw [div_mul_cancel₀ _ hk']
      have hcast : ((v - b : ℤ) : ℚ) = (v : ℚ) - (b : ℚ) := by push_cast; ring
      rw [← hcast, Int.floor_intCast]
      omega
  refine ⟨fun h1 h2 => ?_, fun h1 h2 => ?_, fun h1 h2 => ?_⟩
  · obtain ⟨q, hq, hval⟩ := key 65 10 (by norm_num) h1 (by omega)
    refine ⟨fun _ => q, fun _ => hq, mkDayData nowDay (fun _ => q) 0,
      (mem_generate_iff nowDay _ _).mpr ⟨0, by norm_num, rfl⟩,
      mkReading nowDay 0 0 q q q,
      (mem_mkDayData_iff nowDay _ 0 _).mpr ⟨0, by norm_num, rfl⟩, ?_⟩
    simpa [mkReading] using hval
  · obtain ⟨q, hq, hval⟩ := key 50 20 (by norm_num) h1 (by omega)
    refine ⟨fun _ => q, fun _ => hq, mkDayData nowDay (fun _ => q) 0,
      (mem_generate_iff nowDay _ _).mpr ⟨0, by norm_num, rfl⟩,
      mkReading nowDay 0 0 q q q,
      (mem_mkDayData_iff nowDay _ 0 _).mpr ⟨0, by norm_num, rfl⟩, ?_⟩
    simpa [mkReading] using hval
  · obtain ⟨q, hq, hval⟩ := key 40 30 (by norm_num) h1 (by omega)
    refine ⟨fun _ => q, fun _ => hq, mkDayData nowDay (fun _ => q) 0,
      (mem_generate_iff nowDay _ _).mpr ⟨0, by norm_num, rfl⟩,
      mkReading nowDay 0 0 q q q,
      (mem_mkDayData_iff nowDay _ 0 _).mpr ⟨0, by norm_num, rfl⟩, ?_⟩
    simpa [mkReading] using hval

/-- Witness for the amended C8 at the true upper endpoints: temperature
74, humidity 69 and soil moisture 69 are all attainable. -/
theorem generate_attains_ranges_witness :
    (∃ rng, ValidRng rng ∧
      ∃ d ∈ generateHistoricalData 0 rng, ∃ r ∈ d.data,
        r.temperature = 74) ∧
    (∃ rng, ValidRng rng ∧
      ∃ d ∈ generateHistoricalData 0 rng, ∃ r ∈ d.data,
        r.humidity = 69) ∧
    (∃ rng, ValidRng rng ∧
      ∃ d ∈ generateHistoricalData 0 rng, ∃ r ∈ d.data,
        r.soilMoisture = 69) :=
  ⟨(generate_attains_ranges 0 74).1 (by norm_num) (by norm_num),
   (generate_attains_ranges 0 69).2.1 (by norm_num) (by norm_num),
   (generate_attains_ranges 0 69).2.2 (by norm_num) (by norm_num)⟩

/-- Bucket 1 of the initial state on the all-zero draw stream is
nonempty (it has 12 readings). -/
theorem initState_bucket1_ne_nil :
    ((initState 0 (fun _ => 0)).allDaysData.getD 1 defaultDay).data ≠ [] := by
  have hall : (initState 0 (fun _ => 0)).allDaysData =
      generateHistoricalData 0 (fun _ => 0) := rfl
  rw [hall, generate_getD 0 (fun _ => 0) 1 (by norm_num)]
  simp [mkDayData]

/-- Witness for C5: selecting day 1 from the initial state on the
all-zero draw stream shows the last reading of bucket 1. -/
theorem selectDay_currentData_last_witness :
    (currentData (selectDay (initState 0 (fun _ => 0)) 1)).temperature =
      (((initState 0 (fun _ => 0)).allDaysData.getD 1
          defaultDay).data.getLast initState_bucket1_ne_nil).temperature ∧
    (currentData (selectDay (initState 0 (fun _ => 0)) 1)).humidity =
      (((initState 0 (fun _ => 0)).allDaysData.getD 1
          defaultDay).data.getLast initState_bucket1_ne_nil).humidity ∧
    (currentData (selectDay (initState 0 (fun _ => 0)) 1)).soilMoisture =
      (((initState 0 (fun _ => 0)).allDaysData.getD 1
          defaultDay).data.getLast initState_bucket1_ne_nil).soilMoisture :=
  selectDay_currentData_last (initState 0 (fun _ => 0)) 1
    (by simp [initState, statusEffect, dayEffect, generateHistoricalData])
    initState_bucket1_ne_nil
